import Mathlib

/-!
# Verification of the arch-mcp stdio servers

Shallow embedding of the line-delimited JSON-RPC servers in this repository
(simple_server.py, basic_server.py, minimal.py / minimal_server.py,
server_fixed.py / working_server.py).  Each server consumes newline-delimited
input lines, decodes each line with json.loads, and writes JSON responses to
stdout.  We model a decoded JSON value with the `Json` inductive, an input
line by its decode outcome (`Line`), and each server loop as a function from
the list of input lines to the list of JSON responses written to stdout
(stderr diagnostics are not modelled; they carry no protocol frames).
-/

/-- A JSON value as produced by json.loads: null, booleans, numbers
(ids and the values the claims exercise are integers), strings, arrays and
objects (Python dicts, represented as association lists of their items). -/
inductive Json where
  | null : Json
  | bool (b : Bool) : Json
  | num (n : Int) : Json
  | str (s : String) : Json
  | arr (elems : List Json) : Json
  | obj (fields : List (String × Json)) : Json

/-- Lookup of a key among the decoded fields of a JSON object
(Python dict indexing on the dict json.loads built). -/
def getField : List (String × Json) → String → Option Json
  | [], _ => none
  | (k, v) :: rest, key => if k = key then some v else getField rest key

/-- `request.get(key)` / `request[key]` on a decoded JSON value: the value
when the request is an object containing the key, `none` otherwise (a
missing key makes dict.get return None and dict indexing raise KeyError;
a non-dict makes .get raise AttributeError and indexing raise TypeError —
each caller below turns the raising cases into its own behaviour). -/
def Json.getObjVal? (j : Json) (key : String) : Option Json :=
  match j with
  | .obj fields => getField fields key
  | _ => none

/-- The request method when present as a string: the only values of
`request.get("method")` that can compare equal to a method-name string
literal in the Python sources. -/
def Json.method? (j : Json) : Option String :=
  match j.getObjVal? "method" with
  | some (.str m) => some m
  | _ => none

/-- A JSON-RPC result response as every server in the repository builds it:
`{"jsonrpc": "2.0", "id": <request id>, "result": <result>}`. -/
def mkResponse (id result : Json) : Json :=
  .obj [("jsonrpc", .str "2.0"), ("id", id), ("result", result)]

/-- The initialize result every server returns
(simple_server.py lines 19-23, minimal.py lines 13-17,
minimal_server.py lines 16-25, basic_server.py lines 22-26). -/
def initResult : Json :=
  .obj [("protocolVersion", .str "2024-11-05"),
        ("capabilities", .obj [("tools", .obj [])]),
        ("serverInfo", .obj [("name", .str "architecture-server"),
                             ("version", .str "1.0.0")])]

/-- The tools/list result of simple_server.py (lines 31-37): a single tool. -/
def toolsListResult : Json :=
  .obj [("tools", .arr [
    .obj [("name", .str "architecture_status"),
          ("description", .str "Get architecture status"),
          ("inputSchema", .obj [("type", .str "object"),
                                ("properties", .obj [])])]])]

/-- One read from standard input, abstracted by its decode outcome:
`eof` is the empty read reported at end of stream (Python readline returns
"" there, and only there — a blank line still carries its newline);
`malformed` is a non-empty line on which json.loads raises;
`json j` is a line that decodes to the JSON value `j`. -/
inductive Line where
  | eof : Line
  | malformed : Line
  | json (j : Json) : Line

/-- Modelled from the spec: the session-state enum of the design
(none of the Python scripts keeps an explicit session state; this enum and
the transition function below are the design's handshake state machine,
evaluated over the observable line trace of a server so that the
state-related claims can be stated against the code). -/
inductive SessionState where
  | Uninitialized : SessionState
  | Ready : SessionState
  | Closed : SessionState
deriving DecidableEq, Repr

/-- A line whose dispatch is a successful `initialize` in every stdio server
of the repository: the decoded request answers `initialize` to
`request.get("method")` and carries an `"id"` key, which is exactly when
simple_server.py / basic_server.py write an initialize response for it. -/
def initDispatchOk : Line → Bool
  | .json j => if j.method? = some "initialize" then (j.getObjVal? "id").isSome else false
  | _ => false

/-- Modelled from the spec: one transition of the handshake state machine —
`Ready` is entered only via a successful `initialize` dispatch, `Closed` is
entered at end of stream and absorbs everything after it. -/
def stepState (s : SessionState) (l : Line) : SessionState :=
  match s, l with
  | .Closed, _ => .Closed
  | _, .eof => .Closed
  | s, .malformed => s
  | s, .json j => if initDispatchOk (.json j) then .Ready else s

/-- Modelled from the spec: the session state after a trace of reads,
starting from the sole initial state `Uninitialized`. -/
def stateAfter (ls : List Line) : SessionState :=
  ls.foldl stepState .Uninitialized

namespace simpleServer

/-- The body of simple_server.py's for-loop (lines 12-42) on one decoded
request: an initialize request with an id is answered with `initResult`, a
tools/list request with an id is answered with `toolsListResult`, and
everything else — unknown methods, non-string methods, non-object requests
(whose .get raises, caught at line 41), requests lacking an id (whose
indexing raises KeyError, caught at line 41) — produces no response. -/
def handleJson (req : Json) : Option Json :=
  match req.method? with
  | some m =>
    if m = "initialize" then
      match req.getObjVal? "id" with
      | some i => some (mkResponse i initResult)
      | none => none
    else if m = "tools/list" then
      match req.getObjVal? "id" with
      | some i => some (mkResponse i toolsListResult)
      | none => none
    else none
  | none => none

/-- simple_server.py's main loop (`for line in sys.stdin`): each decoded
line is handled per `handleJson`; a line on which json.loads raises is
caught, logged to stderr and dropped (line 41); iteration stops at end of
stream.  The value is the list of JSON lines written to stdout. -/
def run : List Line → List Json
  | [] => []
  | .eof :: _ => []
  | .malformed :: rest => run rest
  | .json j :: rest =>
    match handleJson j with
    | some resp => resp :: run rest
    | none => run rest

end simpleServer

namespace basicServer

/-- The body of basic_server.py's while-loop (lines 10-32) on one decoded
request: line 16 indexes `request['method']` (KeyError / TypeError caught at
line 31 when absent or the request is not a dict), then only an
`initialize` request with an id is answered; every other method falls
through with no response. -/
def handleJson (req : Json) : Option Json :=
  match req.getObjVal? "method" with
  | some m =>
    match m with
    | .str s =>
      if s = "initialize" then
        match req.getObjVal? "id" with
        | some i => some (mkResponse i initResult)
        | none => none
      else none
    | _ => none
  | none => none

/-- basic_server.py's main loop: readline until the empty read
(`if not line: break`, lines 11-13), each further line decoded and handled
per `handleJson`, decode and handler exceptions caught at line 31. -/
def run : List Line → List Json
  | [] => []
  | .eof :: _ => []
  | .malformed :: rest => run rest
  | .json j :: rest =>
    match handleJson j with
    | some resp => resp :: run rest
    | none => run rest

end basicServer

namespace minimal

/-- The keep-alive loop of minimal.py (lines 23-29) and minimal_server.py
(lines 32-38): every further line is read and discarded without being
parsed and without any output; the empty read breaks the loop. -/
def keepAlive : List Line → List Json
  | [] => []
  | .eof :: _ => []
  | .malformed :: rest => keepAlive rest
  | .json _ :: rest => keepAlive rest

/-- minimal.py's main (lines 4-29), identical in observable stdout
behaviour to minimal_server.py's main (lines 5-41): the first line is
decoded unconditionally (json.loads("") at end of stream, or a malformed
first line, raises uncaught — modelled as `none`, the crashed run with no
output), `request["id"]` is indexed unconditionally (raising uncaught when
absent or the request is not an object), one initialize-shaped response
echoing that id is printed whatever the method is, and the keep-alive loop
then discards the rest of the input.  `some outs` is the stdout of a run
that terminates cleanly, `none` a run killed by an uncaught exception. -/
def run : List Line → Option (List Json)
  | [] => none
  | .eof :: _ => none
  | .malformed :: _ => none
  | .json req :: rest =>
    match req.getObjVal? "id" with
    | some i => some (mkResponse i initResult :: keepAlive rest)
    | none => none

end minimal

/-- Python repr() of a decoded JSON value, as str() uses it inside list and
dict renderings (string quote-switching and escape sequences of repr are
not reproduced; no tool of the repository receives container arguments). -/
def Json.pyRepr : Json → String
  | .null => "None"
  | .bool true => "True"
  | .bool false => "False"
  | .num n => toString n
  | .str s => "'" ++ s ++ "'"
  | .arr elems =>
    "[" ++ String.intercalate ", " (elems.attach.map (fun x => Json.pyRepr x.1)) ++ "]"
  | .obj fields =>
    "\x7b" ++ String.intercalate ", "
      (fields.attach.map (fun x => "'" ++ x.1.1 ++ "': " ++ Json.pyRepr x.1.2)) ++ "\x7d"
decreasing_by
  · have h1 := List.sizeOf_lt_of_mem x.2
    simp only [Json.arr.sizeOf_spec]
    omega
  · have h1 := List.sizeOf_lt_of_mem x.2
    have h2 : sizeOf x.1.2 < sizeOf x.1 := by
      cases x.1 with
      | mk a b => simp only [Prod.mk.sizeOf_spec]; omega
    simp only [Json.obj.sizeOf_spec]
    omega

/-- Python str() of a decoded JSON value, as an f-string renders an
interpolated value: a string is inserted verbatim, every other value as
its repr. -/
def Json.pyStr : Json → String
  | .str s => s
  | j => Json.pyRepr j

/-- One content block `TextContent(type=..., text=...)` of an invocation
result (mcp.types.TextContent as server_fixed.py constructs it). -/
structure TextContent where
  type : String
  text : String
deriving DecidableEq, Repr

/-- One tool descriptor `Tool(name=..., description=..., inputSchema=...)`
(mcp.types.Tool as server_fixed.py constructs it). -/
structure Tool where
  name : String
  description : String
  inputSchema : Json

namespace serverFixed

/-- server_fixed.py's list_tools handler (lines 10-30): the fixed two-tool
registry, in the order the source writes it — architecture_status with an
empty schema, then add_pattern whose schema requires pattern_type and
pattern_data.  working_server.py lines 9-29 registers the same two tools. -/
def list_tools : List Tool :=
  [{ name := "architecture_status",
     description := "Get current architecture status",
     inputSchema := .obj [("type", .str "object"), ("properties", .obj [])] },
   { name := "add_pattern",
     description := "Add new architectural pattern",
     inputSchema := .obj [("type", .str "object"),
       ("properties", .obj [("pattern_type", .obj [("type", .str "string")]),
                            ("pattern_data", .obj [("type", .str "string")])]),
       ("required", .arr [.str "pattern_type", .str "pattern_data"])] }]

/-- `arguments.get(key, default)` on the decoded arguments dict. -/
def dictGet (arguments : List (String × Json)) (key : String) (default : Json) : Json :=
  match getField arguments key with
  | some v => v
  | none => default

/-- server_fixed.py's call_tool handler (lines 32-45), identical in
working_server.py lines 31-44: architecture_status returns its fixed text;
add_pattern reads its two arguments with `arguments.get`, substituting the
defaults "unknown" and "" when a key is absent, and returns the formatted
text; any other name falls off the end of the function, returning
Python's None — modelled as `none`.  `some contents` is a normal return. -/
def call_tool (name : String) (arguments : List (String × Json)) : Option (List TextContent) :=
  if name = "architecture_status" then
    some [{ type := "text",
            text := "Architecture v10.8 operational with professional accuracy enforcement" }]
  else if name = "add_pattern" then
    some [{ type := "text",
            text := "Pattern " ++ (dictGet arguments "pattern_type" (.str "unknown")).pyStr
                    ++ " added: " ++ (dictGet arguments "pattern_data" (.str "")).pyStr }]
  else none

end serverFixed

/-- A well-formed initialize request with integer id `i`, as in the spec's
handshake scenario. -/
def initReq (i : Int) : Json :=
  .obj [("jsonrpc", .str "2.0"), ("id", .num i),
        ("method", .str "initialize"), ("params", .obj [])]

/-- A well-formed tools/list request with integer id `i`. -/
def toolsListReq (i : Int) : Json :=
  .obj [("jsonrpc", .str "2.0"), ("id", .num i), ("method", .str "tools/list")]

/-! ## Helper lemmas -/

/-- A request whose method reads back as the string `m` is an object whose
"method" field is the JSON string `m`. -/
theorem getMethod_of_method? {j : Json} {m : String} (h : j.method? = some m) :
    j.getObjVal? "method" = some (Json.str m) := by
  unfold Json.method? at h
  split at h
  · rename_i heq
    simp only [Option.some.injEq] at h
    subst h
    exact heq
  · exact absurd h (by simp)

/-- The keep-alive loop never writes anything. -/
theorem keepAlive_eq_nil (ls : List Line) : minimal.keepAlive ls = [] := by
  induction ls with
  | nil => rfl
  | cons l rest ih => cases l <;> simp [minimal.keepAlive, ih]

/-- After the empty read, the state machine is Closed whatever came before. -/
theorem stepState_eof (s : SessionState) : stepState s Line.eof = SessionState.Closed := by
  cases s <;> rfl

/-- Closed absorbs every further line. -/
theorem foldl_stepState_closed (ls : List Line) :
    ls.foldl stepState SessionState.Closed = SessionState.Closed := by
  induction ls with
  | nil => rfl
  | cons l rest ih =>
    rw [List.foldl_cons]
    have h : stepState SessionState.Closed l = SessionState.Closed := by cases l <;> rfl
    rw [h, ih]

/-- Any trace containing an empty read ends Closed. -/
theorem stateAfter_append_eof (ls1 ls2 : List Line) :
    stateAfter (ls1 ++ Line.eof :: ls2) = SessionState.Closed := by
  unfold stateAfter
  rw [List.foldl_append, List.foldl_cons, stepState_eof, foldl_stepState_closed]

/-- basic_server's readline loop reads and answers nothing past the empty
read. -/
theorem basicRun_append_eof (ls1 ls2 : List Line) :
    basicServer.run (ls1 ++ Line.eof :: ls2) = basicServer.run ls1 := by
  induction ls1 with
  | nil => rfl
  | cons l rest ih =>
    cases l with
    | eof => rfl
    | malformed => simpa [basicServer.run] using ih
    | json j =>
      simp only [List.cons_append, basicServer.run]
      cases basicServer.handleJson j <;> simp [ih]

/-- minimal's keep-alive loop reads nothing past the empty read. -/
theorem keepAlive_append_eof (ls1 ls2 : List Line) :
    minimal.keepAlive (ls1 ++ Line.eof :: ls2) = minimal.keepAlive ls1 := by
  rw [keepAlive_eq_nil, keepAlive_eq_nil]

/-! ## Claims -/

/-- C1, counterexample: with no prior input the session is Uninitialized,
yet simple_server answers a tools/list request (id 1) with the tool
listing itself — a result response carrying no "error" member — instead of
a "not initialized" error. -/
theorem c1_counterexample :
    stateAfter [] = SessionState.Uninitialized ∧
    simpleServer.handleJson (toolsListReq 1) = some (mkResponse (Json.num 1) toolsListResult) ∧
    (mkResponse (Json.num 1) toolsListResult).getObjVal? "error" = none ∧
    (mkResponse (Json.num 1) toolsListResult).getObjVal? "result" = some toolsListResult :=
  ⟨rfl, rfl, rfl, rfl⟩

/-- C1 (amended): simple_server keeps no session state: a tools/list
request carrying an id and arriving while the session is Uninitialized is
not dropped, but it is answered with the tool-listing result (no error
member), and the session stays Uninitialized. -/
theorem c1_theorem (req i : Json)
    (hm : req.method? = some "tools/list")
    (hi : req.getObjVal? "id" = some i) :
    simpleServer.handleJson req = some (mkResponse i toolsListResult) ∧
    (mkResponse i toolsListResult).getObjVal? "error" = none ∧
    (mkResponse i toolsListResult).getObjVal? "result" = some toolsListResult ∧
    stepState SessionState.Uninitialized (Line.json req) = SessionState.Uninitialized :=
  ⟨by simp [simpleServer.handleJson, hm, hi], rfl, rfl,
   by simp [stepState, initDispatchOk, hm]⟩

/-- C1 witness: the amended statement at the concrete tools/list request
with id 1. -/
theorem c1_witness :
    simpleServer.handleJson (toolsListReq 1) = some (mkResponse (Json.num 1) toolsListResult) ∧
    (mkResponse (Json.num 1) toolsListResult).getObjVal? "error" = none ∧
    (mkResponse (Json.num 1) toolsListResult).getObjVal? "result" = some toolsListResult ∧
    stepState SessionState.Uninitialized (Line.json (toolsListReq 1)) =
      SessionState.Uninitialized :=
  c1_theorem (toolsListReq 1) (Json.num 1) rfl rfl

/-- C2: every initialize request carrying an id is answered by
simple_server with a response echoing that id whose result is exactly
the negotiated `{protocolVersion: "2024-11-05", capabilities: {tools: {}},
serverInfo: {name, version}}` object, and the session state machine moves
to Ready on that dispatch. -/
theorem c2_theorem (req i : Json)
    (hm : req.method? = some "initialize")
    (hi : req.getObjVal? "id" = some i) :
    simpleServer.handleJson req = some (mkResponse i initResult) ∧
    (mkResponse i initResult).getObjVal? "id" = some i ∧
    (mkResponse i initResult).getObjVal? "result" = some initResult ∧
    stepState SessionState.Uninitialized (Line.json req) = SessionState.Ready :=
  ⟨by simp [simpleServer.handleJson, hm, hi], rfl, rfl,
   by simp [stepState, initDispatchOk, hm, hi]⟩

/-- C2 witness: the statement at the concrete initialize request with
id 1. -/
theorem c2_witness :
    simpleServer.handleJson (initReq 1) = some (mkResponse (Json.num 1) initResult) ∧
    (mkResponse (Json.num 1) initResult).getObjVal? "id" = some (Json.num 1) ∧
    (mkResponse (Json.num 1) initResult).getObjVal? "result" = some initResult ∧
    stepState SessionState.Uninitialized (Line.json (initReq 1)) = SessionState.Ready :=
  c2_theorem (initReq 1) (Json.num 1) rfl rfl

/-- C3, counterexample: a request with id 7 and the unregistered method
"frobnicate" is silently dropped by simple_server and by basic_server —
no response of any kind, in particular no method-not-found error. -/
theorem c3_counterexample :
    simpleServer.handleJson (Json.obj [("jsonrpc", Json.str "2.0"), ("id", Json.num 7),
      ("method", Json.str "frobnicate")]) = none ∧
    basicServer.handleJson (Json.obj [("jsonrpc", Json.str "2.0"), ("id", Json.num 7),
      ("method", Json.str "frobnicate")]) = none :=
  ⟨rfl, rfl⟩

/-- C3 (amended): a request whose method is any string other than
"initialize" and "tools/list" (including "tools/call") is silently
dropped: simple_server and basic_server produce no response at all for it,
never a method-not-found error. -/
theorem c3_theorem (req : Json) (m : String)
    (hm : req.method? = some m)
    (h1 : m ≠ "initialize") (h2 : m ≠ "tools/list") :
    simpleServer.handleJson req = none ∧ basicServer.handleJson req = none := by
  have hraw := getMethod_of_method? hm
  constructor
  · simp [simpleServer.handleJson, hm, h1, h2]
  · simp [basicServer.handleJson, hraw, h1]

/-- C3 witness: the amended statement at the concrete "tools/call" request
with id 2 (the spec's pre-initialize scenario method, absent from
simple_server's and basic_server's dispatch). -/
theorem c3_witness :
    simpleServer.handleJson (Json.obj [("id", Json.num 2), ("method", Json.str "tools/call")])
      = none ∧
    basicServer.handleJson (Json.obj [("id", Json.num 2), ("method", Json.str "tools/call")])
      = none :=
  c3_theorem (Json.obj [("id", Json.num 2), ("method", Json.str "tools/call")])
    "tools/call" rfl (by decide) (by decide)

/-- C4, counterexample: add_pattern's declared schema requires
pattern_type and pattern_data, the empty arguments dict contains neither,
yet call_tool returns a normal non-empty invocation result built from the
defaults ("Pattern unknown added: ") instead of an InvalidArguments-class
error. -/
theorem c4_counterexample :
    serverFixed.list_tools.map (fun t => t.inputSchema.getObjVal? "required") =
      [none, some (Json.arr [Json.str "pattern_type", Json.str "pattern_data"])] ∧
    getField [] "pattern_type" = none ∧
    serverFixed.call_tool "add_pattern" [] =
      some [{ type := "text", text := "Pattern unknown added: " }] :=
  ⟨rfl, rfl, rfl⟩

/-- C4 (amended): invoking either registered tool never crashes and always
returns a normal invocation result with exactly one content block, for
every arguments dict — in particular when required schema properties are
absent, where call_tool substitutes the defaults "unknown" / "" rather
than returning an InvalidArguments-class error. -/
theorem c4_theorem (name : String) (args : List (String × Json))
    (h : name ∈ serverFixed.list_tools.map Tool.name) :
    ∃ contents, serverFixed.call_tool name args = some contents ∧ contents.length = 1 := by
  simp [serverFixed.list_tools] at h
  rcases h with h | h <;> subst h
  · exact ⟨_, rfl, rfl⟩
  · exact ⟨_, rfl, rfl⟩

/-- C4 witness: the amended statement at the registered tool add_pattern
invoked with the empty arguments dict. -/
theorem c4_witness :
    ∃ contents, serverFixed.call_tool "add_pattern" [] = some contents ∧
      contents.length = 1 :=
  c4_theorem "add_pattern" [] (by decide)

/-- C5, counterexample: "echo" is absent from the registry, and call_tool
on it returns Python's None — no invocation result and no ToolNotFound
error response. -/
theorem c5_counterexample :
    "echo" ∉ serverFixed.list_tools.map Tool.name ∧
    serverFixed.call_tool "echo" [] = none :=
  ⟨by decide, rfl⟩

/-- C5 (amended): invoking any tool name absent from the registry makes
call_tool fall off the end of the function and return None (modelled
`none`): the caller receives no content and no ToolNotFound-class error
from the handler. -/
theorem c5_theorem (name : String) (args : List (String × Json))
    (h : name ∉ serverFixed.list_tools.map Tool.name) :
    serverFixed.call_tool name args = none := by
  simp [serverFixed.list_tools] at h
  push_neg at h
  obtain ⟨h1, h2⟩ := h
  simp [serverFixed.call_tool, h1, h2]

/-- C5 witness: the amended statement at the unregistered tool name
"echo". -/
theorem c5_witness : serverFixed.call_tool "echo" [] = none :=
  c5_theorem "echo" [] (by decide)

/-- C6, counterexample: on the stream whose first line is malformed and
whose second line is the well-formed initialize request with id 1,
minimal.py / minimal_server.py (cited by the claim) feed the malformed
line to an unguarded json.loads, whose uncaught exception kills the
process: the run is the crashed run with no stdout at all, and the
well-formed line after the malformed one is never dispatched or
answered. -/
theorem c6_counterexample :
    minimal.run [Line.malformed, Line.json (initReq 1)] = none :=
  rfl

/-- C6 (amended): in simple_server a malformed input line is dropped
without terminating the loop or producing output, and a well-formed
initialize line that follows it is still dispatched and answered exactly
as it would have been without the malformed line; in minimal.py /
minimal_server.py, by contrast, a malformed first line crashes the
process through the unguarded json.loads, whatever follows it, and no
later line is ever answered. -/
theorem c6_theorem (req i : Json) (rest : List Line)
    (hm : req.method? = some "initialize")
    (hi : req.getObjVal? "id" = some i) :
    (∀ rest2 : List Line, simpleServer.run (Line.malformed :: rest2) = simpleServer.run rest2) ∧
    simpleServer.run (Line.malformed :: Line.json req :: rest) =
      mkResponse i initResult :: simpleServer.run rest ∧
    (∀ rest3 : List Line, minimal.run (Line.malformed :: rest3) = none) :=
  ⟨fun _ => rfl, by simp [simpleServer.run, simpleServer.handleJson, hm, hi],
   fun _ => rfl⟩

/-- C6 witness: the amended statement at a stream holding one malformed
line followed by the initialize request with id 1 and nothing else. -/
theorem c6_witness :
    (∀ rest2 : List Line, simpleServer.run (Line.malformed :: rest2) = simpleServer.run rest2) ∧
    simpleServer.run (Line.malformed :: Line.json (initReq 1) :: []) =
      mkResponse (Json.num 1) initResult :: simpleServer.run [] ∧
    (∀ rest3 : List Line, minimal.run (Line.malformed :: rest3) = none) :=
  c6_theorem (initReq 1) (Json.num 1) [] rfl rfl

/-- C7, counterexample: after minimal.py's first line the session is
Ready, yet a run whose input is two initialize requests (ids 1 and 2)
writes exactly one response — the one echoing id 1 — so the second
initialize is read and discarded, not answered. -/
theorem c7_counterexample :
    stateAfter [Line.json (initReq 1)] = SessionState.Ready ∧
    minimal.run [Line.json (initReq 1), Line.json (initReq 2)] =
      some [mkResponse (Json.num 1) initResult] :=
  ⟨rfl, rfl⟩

/-- C7 (amended): in simple_server a second initialize dispatched while
the session is Ready is answered with the identical negotiated result
(the same initResult object, hence the same protocolVersion, capabilities
and serverInfo as the first handshake), the session stays Ready, and the
tool registry is untouched — a tools/list afterwards still returns the
same listing; in minimal.py, by contrast, every line after the first is
discarded without a response (c7_counterexample). -/
theorem c7_theorem (pre : List Line)
    (hready : stateAfter pre = SessionState.Ready)
    (req i : Json)
    (hm : req.method? = some "initialize")
    (hi : req.getObjVal? "id" = some i)
    (req2 i2 : Json)
    (hm2 : req2.method? = some "tools/list")
    (hi2 : req2.getObjVal? "id" = some i2) :
    simpleServer.handleJson req = some (mkResponse i initResult) ∧
    (mkResponse i initResult).getObjVal? "result" = some initResult ∧
    stateAfter (pre ++ [Line.json req]) = SessionState.Ready ∧
    simpleServer.handleJson req2 = some (mkResponse i2 toolsListResult) := by
  refine ⟨by simp [simpleServer.handleJson, hm, hi], rfl, ?_, ?_⟩
  · unfold stateAfter
    rw [List.foldl_append]
    have h : List.foldl stepState SessionState.Uninitialized pre = SessionState.Ready := hready
    rw [h, List.foldl_cons, List.foldl_nil]
    simp [stepState, initDispatchOk, hm, hi]
  · simp [simpleServer.handleJson, hm2, hi2]

/-- C7 witness: the amended statement with the first handshake done by the
initialize request with id 1, the re-handshake carrying id 2, and a
tools/list probe carrying id 3. -/
theorem c7_witness :
    simpleServer.handleJson (initReq 2) = some (mkResponse (Json.num 2) initResult) ∧
    (mkResponse (Json.num 2) initResult).getObjVal? "result" = some initResult ∧
    stateAfter ([Line.json (initReq 1)] ++ [Line.json (initReq 2)]) = SessionState.Ready ∧
    simpleServer.handleJson (toolsListReq 3) = some (mkResponse (Json.num 3) toolsListResult) :=
  c7_theorem [Line.json (initReq 1)] rfl (initReq 2) (Json.num 2) rfl rfl
    (toolsListReq 3) (Json.num 3) rfl rfl

/-- C8: two tools/list requests dispatched while the session is Ready both
receive responses carrying literally the same result object — the fixed
listing, whose tools appear in registration order — and server_fixed's
list_tools handler returns its two tools in exactly the order the source
registers them. -/
theorem c8_theorem (pre : List Line)
    (_hready : stateAfter pre = SessionState.Ready)
    (r1 i1 r2 i2 : Json)
    (hm1 : r1.method? = some "tools/list") (hi1 : r1.getObjVal? "id" = some i1)
    (hm2 : r2.method? = some "tools/list") (hi2 : r2.getObjVal? "id" = some i2) :
    simpleServer.handleJson r1 = some (mkResponse i1 toolsListResult) ∧
    simpleServer.handleJson r2 = some (mkResponse i2 toolsListResult) ∧
    (mkResponse i1 toolsListResult).getObjVal? "result" =
      (mkResponse i2 toolsListResult).getObjVal? "result" ∧
    serverFixed.list_tools.map Tool.name = ["architecture_status", "add_pattern"] :=
  ⟨by simp [simpleServer.handleJson, hm1, hi1],
   by simp [simpleServer.handleJson, hm2, hi2],
   rfl, rfl⟩

/-- C8 witness: the statement after the initialize with id 1, with the two
tools/list requests carrying ids 2 and 3. -/
theorem c8_witness :
    simpleServer.handleJson (toolsListReq 2) = some (mkResponse (Json.num 2) toolsListResult) ∧
    simpleServer.handleJson (toolsListReq 3) = some (mkResponse (Json.num 3) toolsListResult) ∧
    (mkResponse (Json.num 2) toolsListResult).getObjVal? "result" =
      (mkResponse (Json.num 3) toolsListResult).getObjVal? "result" ∧
    serverFixed.list_tools.map Tool.name = ["architecture_status", "add_pattern"] :=
  c8_theorem [Line.json (initReq 1)] rfl (toolsListReq 2) (Json.num 2)
    (toolsListReq 3) (Json.num 3) rfl rfl rfl rfl

/-- C9: whatever was read before it and whatever bytes lie beyond it, the
empty read ends every readline loop of the repository: basic_server's
loop writes nothing for, and never looks at, lines past the end of
stream; the session state machine is Closed from that point on and stays
Closed; and minimal's keep-alive loop likewise never touches lines past
the end of stream. -/
theorem c9_theorem : ∀ ls1 ls2 : List Line,
    basicServer.run (ls1 ++ Line.eof :: ls2) = basicServer.run ls1 ∧
    stateAfter (ls1 ++ Line.eof :: ls2) = SessionState.Closed ∧
    minimal.keepAlive (ls1 ++ Line.eof :: ls2) = minimal.keepAlive ls1 :=
  fun ls1 ls2 =>
    ⟨basicRun_append_eof ls1 ls2, stateAfter_append_eof ls1 ls2,
     keepAlive_append_eof ls1 ls2⟩

/-- C10: whenever minimal.py's first line decodes to an object carrying an
id, the whole run writes exactly one stdout line — the initialize-shaped
result response echoing that id, whatever the method field says or whether
it exists — and every subsequent input line is read and discarded with no
further output. -/
theorem c10_theorem (req i : Json) (rest : List Line)
    (hi : req.getObjVal? "id" = some i) :
    minimal.run (Line.json req :: rest) = some [mkResponse i initResult] := by
  simp [minimal.run, hi, keepAlive_eq_nil]

/-- C10 witness: the statement at a first line with id 5 and no method at
all, followed by two further lines (one well-formed, one malformed) that
are discarded. -/
theorem c10_witness :
    minimal.run (Line.json (Json.obj [("id", Json.num 5)]) ::
      [Line.json (toolsListReq 6), Line.malformed]) =
      some [mkResponse (Json.num 5) initResult] :=
  c10_theorem (Json.obj [("id", Json.num 5)]) (Json.num 5)
    [Line.json (toolsListReq 6), Line.malformed] rfl
